import Mathlib

/-!
Verification of the IAM Policy Client Facade of the Cloud Pub/Sub IAM
snippets repository (samples/snippets/iam.py).

The facade is embedded shallowly: the external Policy Service collaborator
is a record of three fallible operations; each facade function is translated
from the Python source and returns the trace of transport/service events it
performs (session acquisition, service calls, session close) together with
its result.  Errors raised by the service propagate through `Except`,
mirroring Python exceptions: statements after a raising call (including a
manual `client.close()`) are not reached.
-/

/-- Error kinds raised by the Policy Service collaborator. -/
inductive ServiceError
  | notFound
  | permissionDenied
  | unavailable
  | aborted
deriving DecidableEq, Repr

/-- One (role, members) pair within a Policy. -/
structure Binding where
  role : String
  members : List String
deriving DecidableEq, Repr

/-- An IAM policy: its repeated `bindings` field. -/
structure Policy where
  bindings : List Binding
deriving DecidableEq, Repr

/-- `policy.bindings.add(role=..., members=...)`: appends one binding to the
repeated field of the in-memory policy (protobuf repeated-field `add`). -/
def Policy.addBinding (p : Policy) (role : String) (members : List String) : Policy :=
  { p with bindings := p.bindings ++ [⟨role, members⟩] }

/-- Transport-level events a facade call performs, in order:
client construction (session acquisition), the three Policy Service RPCs,
and `client.close()` (session release). -/
inductive Event
  | acquire
  | getIamPolicy (resource : String)
  | setIamPolicy (resource : String) (policy : Policy)
  | testIamPermissions (resource : String) (permissions : List String)
  | close
deriving DecidableEq, Repr

/-- The external Policy Service collaborator: responses to the three RPCs.
Policy storage and permission evaluation live entirely behind it. -/
structure PolicyService where
  getIamPolicy : String → Except ServiceError Policy
  setIamPolicy : String → Policy → Except ServiceError Policy
  testIamPermissions : String → List String → Except ServiceError (List String)

/-- `client.topic_path(project_id, topic_id)`: the deterministic resource
path template for topics. -/
def topic_path (project_id topic_id : String) : String :=
  "projects/" ++ project_id ++ "/topics/" ++ topic_id

/-- `client.subscription_path(project_id, subscription_id)`: the deterministic
resource path template for subscriptions. -/
def subscription_path (project_id subscription_id : String) : String :=
  "projects/" ++ project_id ++ "/subscriptions/" ++ subscription_id

/-- `get_topic_policy` (iam.py lines 27-44): build a PublisherClient, build the
topic path, fetch the policy, print it.  The client is never closed. -/
def get_topic_policy (svc : PolicyService) (project_id topic_id : String) :
    List Event × Except ServiceError Policy :=
  let path := topic_path project_id topic_id
  match svc.getIamPolicy path with
  | .error e => ([.acquire, .getIamPolicy path], .error e)
  | .ok policy => ([.acquire, .getIamPolicy path], .ok policy)

/-- `get_subscription_policy` (iam.py lines 47-66): build a SubscriberClient,
fetch the policy, print it, then `client.close()`.  The close is reached only
when the fetch does not raise. -/
def get_subscription_policy (svc : PolicyService) (project_id subscription_id : String) :
    List Event × Except ServiceError Policy :=
  let path := subscription_path project_id subscription_id
  match svc.getIamPolicy path with
  | .error e => ([.acquire, .getIamPolicy path], .error e)
  | .ok policy => ([.acquire, .getIamPolicy path, .close], .ok policy)

/-- `set_topic_policy` (iam.py lines 69-95): fetch the current policy, append
the two hard-coded bindings to the in-memory copy, submit the result, print
the echoed policy.  The client is never closed. -/
def set_topic_policy (svc : PolicyService) (project_id topic_id : String) :
    List Event × Except ServiceError Policy :=
  let path := topic_path project_id topic_id
  match svc.getIamPolicy path with
  | .error e => ([.acquire, .getIamPolicy path], .error e)
  | .ok policy =>
    let policy := policy.addBinding "roles/pubsub.viewer" ["domain:google.com"]
    let policy := policy.addBinding "roles/pubsub.publisher" ["group:cloud-logs@google.com"]
    match svc.setIamPolicy path policy with
    | .error e => ([.acquire, .getIamPolicy path, .setIamPolicy path policy], .error e)
    | .ok result => ([.acquire, .getIamPolicy path, .setIamPolicy path policy], .ok result)

/-- `set_subscription_policy` (iam.py lines 98-126): fetch the current policy,
append the two hard-coded bindings, submit the result, print, then
`client.close()` — reached only when neither RPC raises. -/
def set_subscription_policy (svc : PolicyService) (project_id subscription_id : String) :
    List Event × Except ServiceError Policy :=
  let path := subscription_path project_id subscription_id
  match svc.getIamPolicy path with
  | .error e => ([.acquire, .getIamPolicy path], .error e)
  | .ok policy =>
    let policy := policy.addBinding "roles/pubsub.viewer" ["domain:google.com"]
    let policy := policy.addBinding "roles/editor" ["group:cloud-logs@google.com"]
    match svc.setIamPolicy path policy with
    | .error e => ([.acquire, .getIamPolicy path, .setIamPolicy path policy], .error e)
    | .ok result => ([.acquire, .getIamPolicy path, .setIamPolicy path policy, .close], .ok result)

/-- The hard-coded permission list of `check_topic_permissions` (line 141). -/
def topic_permissions_to_check : List String :=
  ["pubsub.topics.publish", "pubsub.topics.update"]

/-- The hard-coded permission list of `check_subscription_permissions`
(lines 165-168). -/
def subscription_permissions_to_check : List String :=
  ["pubsub.subscriptions.consume", "pubsub.subscriptions.update"]

/-- `check_topic_permissions` (iam.py lines 129-150): test the fixed permission
list against the topic, print the allowed subset.  The client is never
closed. -/
def check_topic_permissions (svc : PolicyService) (project_id topic_id : String) :
    List Event × Except ServiceError (List String) :=
  let path := topic_path project_id topic_id
  match svc.testIamPermissions path topic_permissions_to_check with
  | .error e => ([.acquire, .testIamPermissions path topic_permissions_to_check], .error e)
  | .ok allowed => ([.acquire, .testIamPermissions path topic_permissions_to_check], .ok allowed)

/-- `check_subscription_permissions` (iam.py lines 153-181): test the fixed
permission list against the subscription, print the allowed subset, then
`client.close()` — reached only on the non-raising path. -/
def check_subscription_permissions (svc : PolicyService) (project_id subscription_id : String) :
    List Event × Except ServiceError (List String) :=
  let path := subscription_path project_id subscription_id
  match svc.testIamPermissions path subscription_permissions_to_check with
  | .error e => ([.acquire, .testIamPermissions path subscription_permissions_to_check], .error e)
  | .ok allowed =>
    ([.acquire, .testIamPermissions path subscription_permissions_to_check, .close], .ok allowed)

/-- Value printed/returned by a dispatched command. -/
inductive CommandResult
  | policy (p : Policy)
  | permissions (ps : List String)
deriving DecidableEq, Repr

/-- The `__main__` dispatcher (iam.py lines 226-237): the if/elif chain on
`args.command`.  `command = none` models argparse leaving the optional
subcommand unset.  A fall-through (no branch matches) performs nothing and
the script ends normally, modelled as result `none`. -/
def dispatch (svc : PolicyService) (project_id : String)
    (command : Option String) (resource_id : String) :
    List Event × Option (Except ServiceError CommandResult) :=
  if command = some "get-topic-policy" then
    let r := get_topic_policy svc project_id resource_id
    (r.1, some (r.2.map CommandResult.policy))
  else if command = some "get-subscription-policy" then
    let r := get_subscription_policy svc project_id resource_id
    (r.1, some (r.2.map CommandResult.policy))
  else if command = some "set-topic-policy" then
    let r := set_topic_policy svc project_id resource_id
    (r.1, some (r.2.map CommandResult.policy))
  else if command = some "set-subscription-policy" then
    let r := set_subscription_policy svc project_id resource_id
    (r.1, some (r.2.map CommandResult.policy))
  else if command = some "check-topic-permissions" then
    let r := check_topic_permissions svc project_id resource_id
    (r.1, some (r.2.map CommandResult.permissions))
  else if command = some "check-subscription-permissions" then
    let r := check_subscription_permissions svc project_id resource_id
    (r.1, some (r.2.map CommandResult.permissions))
  else
    ([], none)

/-- Process exit code of one dispatched invocation: 0 when the script runs to
the end (including a dispatcher fall-through), nonzero when a Policy Service
error propagates uncaught out of the facade. -/
def exit_code (run : List Event × Option (Except ServiceError CommandResult)) : Nat :=
  match run.2 with
  | none => 0
  | some (.ok _) => 0
  | some (.error _) => 1

/-- The six recognized subcommands of the dispatcher. -/
def command_list : List String :=
  ["get-topic-policy", "get-subscription-policy", "set-topic-policy",
   "set-subscription-policy", "check-topic-permissions", "check-subscription-permissions"]

/-- Keep only the Policy Service RPC events of a trace (drop session
acquisition/teardown). -/
def Event.isServiceCall : Event → Bool
  | .getIamPolicy _ => true
  | .setIamPolicy _ _ => true
  | .testIamPermissions _ _ => true
  | _ => false

/-- The Policy Service RPCs of a trace, in order. -/
def serviceCalls (t : List Event) : List Event :=
  t.filter Event.isServiceCall

/-- The policies a trace submits via SetIamPolicy, in order. -/
def submittedPolicies : List Event → List Policy
  | [] => []
  | .setIamPolicy _ p :: rest => p :: submittedPolicies rest
  | _ :: rest => submittedPolicies rest

/-- The two bindings `set_topic_policy` appends (iam.py lines 83-89). -/
def topic_bindings_to_add : List Binding :=
  [⟨"roles/pubsub.viewer", ["domain:google.com"]⟩,
   ⟨"roles/pubsub.publisher", ["group:cloud-logs@google.com"]⟩]

/-- The two bindings `set_subscription_policy` appends (iam.py lines 112-116). -/
def subscription_bindings_to_add : List Binding :=
  [⟨"roles/pubsub.viewer", ["domain:google.com"]⟩,
   ⟨"roles/editor", ["group:cloud-logs@google.com"]⟩]

/-- Modelled from the spec: the generalized facade operation
`GetPolicy(projectId, resourceName) → Policy` of section 4.1, stated on an
already-built resource identifier.  The repository's source only contains the
hard-coded per-kind specializations; the parameterized contract itself is not
under src/.  Requests the current Policy from the service keyed by the
identifier. -/
def GetPolicy (svc : PolicyService) (resource : String) :
    List Event × Except ServiceError Policy :=
  match svc.getIamPolicy resource with
  | .error e => ([.acquire, .getIamPolicy resource], .error e)
  | .ok policy => ([.acquire, .getIamPolicy resource], .ok policy)

/-- Modelled from the spec: the generalized facade operation
`SetPolicy(projectId, resourceName, bindingsToAdd) → Policy` of section 4.1,
stated on an already-built resource identifier.  The source only contains the
specializations with hard-coded binding lists; the parameterized contract
itself is not under src/.  Fetches the current Policy, appends
`bindingsToAdd` to the in-memory copy without deduplication, then submits the
full resulting Policy back as an unconditional overwrite. -/
def SetPolicy (svc : PolicyService) (resource : String) (bindingsToAdd : List Binding) :
    List Event × Except ServiceError Policy :=
  match svc.getIamPolicy resource with
  | .error e => ([.acquire, .getIamPolicy resource], .error e)
  | .ok policy =>
    let submitted : Policy := ⟨policy.bindings ++ bindingsToAdd⟩
    match svc.setIamPolicy resource submitted with
    | .error e => ([.acquire, .getIamPolicy resource, .setIamPolicy resource submitted], .error e)
    | .ok result => ([.acquire, .getIamPolicy resource, .setIamPolicy resource submitted], .ok result)

/-- A reference Policy Service used to instantiate theorems on concrete
inputs: policies are served from a fixed store, a submitted policy is echoed
back unchanged, and a permission test grants the whole requested list. -/
def storeService (store : String → Policy) : PolicyService :=
  ⟨fun r => .ok (store r), fun _ p => .ok p, fun _ perms => .ok perms⟩

/-- A Policy Service whose every RPC fails with the same error. -/
def failService (e : ServiceError) : PolicyService :=
  ⟨fun _ => .error e, fun _ _ => .error e, fun _ _ => .error e⟩

/-- A Policy Service whose reads succeed with a fixed policy and whose
writes and permission tests fail with the given error. -/
def setFailService (p : Policy) (e : ServiceError) : PolicyService :=
  ⟨fun _ => .ok p, fun _ _ => .error e, fun _ _ => .error e⟩

/-- C1: for every project id and resource name, the set operations perform
exactly a fetch of the current policy followed by a single unconditional
write of the fetched policy with the new bindings appended — no other
service read (no version or concurrency token) occurs, and nothing is
deduplicated or merged. -/
theorem set_policy_step_sequence (svc : PolicyService) (pid tid sid : String)
    (ft fs : Policy)
    (hgt : svc.getIamPolicy (topic_path pid tid) = .ok ft)
    (hgs : svc.getIamPolicy (subscription_path pid sid) = .ok fs) :
    serviceCalls (set_topic_policy svc pid tid).1 =
      [.getIamPolicy (topic_path pid tid),
       .setIamPolicy (topic_path pid tid) ⟨ft.bindings ++ topic_bindings_to_add⟩] ∧
    serviceCalls (set_subscription_policy svc pid sid).1 =
      [.getIamPolicy (subscription_path pid sid),
       .setIamPolicy (subscription_path pid sid) ⟨fs.bindings ++ subscription_bindings_to_add⟩] := by
  constructor
  · simp only [set_topic_policy, hgt]
    split <;>
      simp [serviceCalls, Event.isServiceCall, Policy.addBinding,
        topic_bindings_to_add]
  · simp only [set_subscription_policy, hgs]
    split <;>
      simp [serviceCalls, Event.isServiceCall, Policy.addBinding,
        subscription_bindings_to_add]

/-- C1 witness: the step sequence at a concrete service and concrete ids. -/
theorem set_policy_step_sequence_witness :
    serviceCalls (set_topic_policy (storeService fun _ => ⟨[]⟩) "proj-1" "topic-a").1 =
      [.getIamPolicy (topic_path "proj-1" "topic-a"),
       .setIamPolicy (topic_path "proj-1" "topic-a")
         ⟨(Policy.mk []).bindings ++ topic_bindings_to_add⟩] ∧
    serviceCalls (set_subscription_policy (storeService fun _ => ⟨[]⟩) "proj-1" "sub-a").1 =
      [.getIamPolicy (subscription_path "proj-1" "sub-a"),
       .setIamPolicy (subscription_path "proj-1" "sub-a")
         ⟨(Policy.mk []).bindings ++ subscription_bindings_to_add⟩] :=
  set_policy_step_sequence (storeService fun _ => ⟨[]⟩) "proj-1" "topic-a" "sub-a"
    ⟨[]⟩ ⟨[]⟩ rfl rfl

/-- C2: with topic "topic-a" of project "proj-1" holding the empty policy,
`SetPolicy` with the single binding (roles/pubsub.viewer, [domain:google.com])
submits to the Policy Service exactly the policy holding that one binding and
nothing else. -/
theorem set_policy_empty_scenario :
    submittedPolicies (SetPolicy (storeService fun _ => ⟨[]⟩)
        (topic_path "proj-1" "topic-a")
        [⟨"roles/pubsub.viewer", ["domain:google.com"]⟩]).1 =
      [⟨[⟨"roles/pubsub.viewer", ["domain:google.com"]⟩]⟩] := rfl

/-- C3: the set operations are append-only per call: the single policy each
one submits carries the fetched bindings B with the call's new bindings
appended, i.e. as a multiset exactly B plus the added bindings — nothing
removed, modified, or merged by role. -/
theorem set_policy_append_only (svc : PolicyService) (pid tid sid : String)
    (ft fs : Policy)
    (hgt : svc.getIamPolicy (topic_path pid tid) = .ok ft)
    (hgs : svc.getIamPolicy (subscription_path pid sid) = .ok fs) :
    submittedPolicies (set_topic_policy svc pid tid).1 =
      [⟨ft.bindings ++ topic_bindings_to_add⟩] ∧
    (↑(ft.bindings ++ topic_bindings_to_add) : Multiset Binding) =
      ↑ft.bindings + ↑topic_bindings_to_add ∧
    submittedPolicies (set_subscription_policy svc pid sid).1 =
      [⟨fs.bindings ++ subscription_bindings_to_add⟩] ∧
    (↑(fs.bindings ++ subscription_bindings_to_add) : Multiset Binding) =
      ↑fs.bindings + ↑subscription_bindings_to_add := by
  refine ⟨?_, ?_, ?_, ?_⟩
  · simp only [set_topic_policy, hgt]
    split <;>
      simp [submittedPolicies, Policy.addBinding, topic_bindings_to_add]
  · exact (Multiset.coe_add _ _).symm
  · simp only [set_subscription_policy, hgs]
    split <;>
      simp [submittedPolicies, Policy.addBinding, subscription_bindings_to_add]
  · exact (Multiset.coe_add _ _).symm

/-- C3 witness: append-only behaviour at a concrete service holding one
existing binding. -/
theorem set_policy_append_only_witness :
    submittedPolicies (set_topic_policy
        (storeService fun _ => ⟨[⟨"roles/owner", ["user:a@b.com"]⟩]⟩) "proj-1" "topic-a").1 =
      [⟨(Policy.mk [⟨"roles/owner", ["user:a@b.com"]⟩]).bindings ++ topic_bindings_to_add⟩] ∧
    (↑((Policy.mk [⟨"roles/owner", ["user:a@b.com"]⟩]).bindings ++ topic_bindings_to_add) :
        Multiset Binding) =
      ↑(Policy.mk [⟨"roles/owner", ["user:a@b.com"]⟩]).bindings + ↑topic_bindings_to_add ∧
    submittedPolicies (set_subscription_policy
        (storeService fun _ => ⟨[⟨"roles/owner", ["user:a@b.com"]⟩]⟩) "proj-1" "sub-a").1 =
      [⟨(Policy.mk [⟨"roles/owner", ["user:a@b.com"]⟩]).bindings ++ subscription_bindings_to_add⟩] ∧
    (↑((Policy.mk [⟨"roles/owner", ["user:a@b.com"]⟩]).bindings ++ subscription_bindings_to_add) :
        Multiset Binding) =
      ↑(Policy.mk [⟨"roles/owner", ["user:a@b.com"]⟩]).bindings + ↑subscription_bindings_to_add :=
  set_policy_append_only (storeService fun _ => ⟨[⟨"roles/owner", ["user:a@b.com"]⟩]⟩)
    "proj-1" "topic-a" "sub-a" ⟨[⟨"roles/owner", ["user:a@b.com"]⟩]⟩
    ⟨[⟨"roles/owner", ["user:a@b.com"]⟩]⟩ rfl rfl

/-- C4: against any service that echoes submitted policies, `GetPolicy`
followed immediately by `SetPolicy` with an empty bindingsToAdd list returns
the original policy unchanged — the no-op append is idempotent on the
binding set. -/
theorem set_policy_noop_idempotent (svc : PolicyService) (resource : String)
    (orig : Policy)
    (hget : (GetPolicy svc resource).2 = .ok orig)
    (hecho : ∀ r q, svc.setIamPolicy r q = .ok q) :
    (SetPolicy svc resource []).2 = .ok orig := by
  have hg : svc.getIamPolicy resource = .ok orig := by
    unfold GetPolicy at hget
    cases h : svc.getIamPolicy resource <;> rw [h] at hget <;> simp_all
  simp [SetPolicy, hg, hecho]

/-- C4 witness: the no-op round trip at a concrete store. -/
theorem set_policy_noop_idempotent_witness :
    (GetPolicy (storeService fun _ => ⟨topic_bindings_to_add⟩) "r").2 =
      .ok ⟨topic_bindings_to_add⟩ ∧
    (SetPolicy (storeService fun _ => ⟨topic_bindings_to_add⟩) "r" []).2 =
      .ok ⟨topic_bindings_to_add⟩ :=
  ⟨rfl, set_policy_noop_idempotent (storeService fun _ => ⟨topic_bindings_to_add⟩) "r"
    ⟨topic_bindings_to_add⟩ rfl (fun _ _ => rfl)⟩

/-- C5: against any service whose permission test reports a subset of the
requested list, each check operation sends exactly its requested permission
list unchanged as its single service call, returns exactly the granted
subset the service reports, and that result is a subset of the requested
list. -/
theorem check_permissions_subset (svc : PolicyService) (pid tid sid : String)
    (gt gs : List String)
    (ht : svc.testIamPermissions (topic_path pid tid) topic_permissions_to_check = .ok gt)
    (hs : svc.testIamPermissions (subscription_path pid sid)
        subscription_permissions_to_check = .ok gs)
    (hsub : ∀ r ps g, svc.testIamPermissions r ps = .ok g → g ⊆ ps) :
    serviceCalls (check_topic_permissions svc pid tid).1 =
      [.testIamPermissions (topic_path pid tid) topic_permissions_to_check] ∧
    (check_topic_permissions svc pid tid).2 = .ok gt ∧
    gt ⊆ topic_permissions_to_check ∧
    serviceCalls (check_subscription_permissions svc pid sid).1 =
      [.testIamPermissions (subscription_path pid sid) subscription_permissions_to_check] ∧
    (check_subscription_permissions svc pid sid).2 = .ok gs ∧
    gs ⊆ subscription_permissions_to_check := by
  refine ⟨?_, ?_, hsub _ _ _ ht, ?_, ?_, hsub _ _ _ hs⟩
  · simp only [check_topic_permissions, ht]
    simp [serviceCalls, Event.isServiceCall]
  · simp only [check_topic_permissions, ht]
  · simp only [check_subscription_permissions, hs]
    simp [serviceCalls, Event.isServiceCall]
  · simp only [check_subscription_permissions, hs]

/-- C5 witness: the check operations at a concrete service granting the full
requested lists. -/
theorem check_permissions_subset_witness :
    serviceCalls (check_topic_permissions (storeService fun _ => ⟨[]⟩) "proj-1" "topic-a").1 =
      [.testIamPermissions (topic_path "proj-1" "topic-a") topic_permissions_to_check] ∧
    (check_topic_permissions (storeService fun _ => ⟨[]⟩) "proj-1" "topic-a").2 =
      .ok topic_permissions_to_check ∧
    topic_permissions_to_check ⊆ topic_permissions_to_check ∧
    serviceCalls (check_subscription_permissions (storeService fun _ => ⟨[]⟩) "proj-1" "sub-a").1 =
      [.testIamPermissions (subscription_path "proj-1" "sub-a")
        subscription_permissions_to_check] ∧
    (check_subscription_permissions (storeService fun _ => ⟨[]⟩) "proj-1" "sub-a").2 =
      .ok subscription_permissions_to_check ∧
    subscription_permissions_to_check ⊆ subscription_permissions_to_check :=
  check_permissions_subset (storeService fun _ => ⟨[]⟩) "proj-1" "topic-a" "sub-a"
    topic_permissions_to_check subscription_permissions_to_check rfl rfl
    (fun r ps g h => by injection h with h2; subst h2; exact fun _ hx => hx)

/-- C6: every error the Policy Service raises propagates out of every facade
operation unchanged — the same error kind, never caught, transformed, or
replaced by a silent empty result — and drives the CLI exit code nonzero.
Covered sites: the first RPC of all six operations (a service failing
everywhere with e) and the write RPC of the two set operations (a service
whose read succeeds and whose write fails with e). -/
theorem facade_error_propagation (pid rid : String) (e : ServiceError) (p : Policy) :
    (get_topic_policy (failService e) pid rid).2 = .error e ∧
    (get_subscription_policy (failService e) pid rid).2 = .error e ∧
    (set_topic_policy (failService e) pid rid).2 = .error e ∧
    (set_subscription_policy (failService e) pid rid).2 = .error e ∧
    (check_topic_permissions (failService e) pid rid).2 = .error e ∧
    (check_subscription_permissions (failService e) pid rid).2 = .error e ∧
    (set_topic_policy (setFailService p e) pid rid).2 = .error e ∧
    (set_subscription_policy (setFailService p e) pid rid).2 = .error e ∧
    exit_code (dispatch (failService e) pid (some "get-topic-policy") rid) = 1 ∧
    exit_code (dispatch (failService e) pid (some "set-subscription-policy") rid) = 1 := by
  refine ⟨rfl, rfl, rfl, rfl, rfl, rfl, rfl, rfl, ?_, ?_⟩ <;>
    simp [dispatch, exit_code, get_topic_policy, set_subscription_policy, failService,
      Except.map]

/-- C7: contrary to the scoped-acquisition requirement, the facade does not
release its client session on every exit path: `get_topic_policy` (like the
other topic operations) acquires a session and never closes it even on
success, and `get_subscription_policy` skips its manual `client.close()`
when the service raises. -/
theorem session_release_missing :
    Event.acquire ∈ (get_topic_policy (storeService fun _ => ⟨[]⟩) "proj-1" "topic-a").1 ∧
    Event.close ∉ (get_topic_policy (storeService fun _ => ⟨[]⟩) "proj-1" "topic-a").1 ∧
    Event.acquire ∈ (get_subscription_policy (failService .notFound) "proj-1" "sub-a").1 ∧
    Event.close ∉ (get_subscription_policy (failService .notFound) "proj-1" "sub-a").1 ∧
    Event.acquire ∈ (set_topic_policy (storeService fun _ => ⟨[]⟩) "proj-1" "topic-a").1 ∧
    Event.close ∉ (set_topic_policy (storeService fun _ => ⟨[]⟩) "proj-1" "topic-a").1 ∧
    Event.acquire ∈ (check_topic_permissions (storeService fun _ => ⟨[]⟩) "proj-1" "topic-a").1 ∧
    Event.close ∉ (check_topic_permissions (storeService fun _ => ⟨[]⟩) "proj-1" "topic-a").1 ∧
    Event.close ∉ (set_subscription_policy (setFailService ⟨[]⟩ .aborted) "proj-1" "sub-a").1 := by
  refine ⟨?_, ?_, ?_, ?_, ?_, ?_, ?_, ?_, ?_⟩ <;>
    simp [get_topic_policy, get_subscription_policy, set_topic_policy,
      check_topic_permissions, set_subscription_policy, storeService, failService,
      setFailService, Policy.addBinding]

/-- C8: the bindings the set operations add are hard-coded constants, not
inputs: whatever the project, resource, and fetched policy,
`set_topic_policy` submits the fetched bindings followed by exactly
(roles/pubsub.viewer, [domain:google.com]) and
(roles/pubsub.publisher, [group:cloud-logs@google.com]), while
`set_subscription_policy` appends exactly
(roles/pubsub.viewer, [domain:google.com]) and
(roles/editor, [group:cloud-logs@google.com]). -/
theorem set_policy_hardcoded_bindings (svc : PolicyService) (pid tid sid : String)
    (ft fs : Policy)
    (hgt : svc.getIamPolicy (topic_path pid tid) = .ok ft)
    (hgs : svc.getIamPolicy (subscription_path pid sid) = .ok fs) :
    topic_bindings_to_add =
      [⟨"roles/pubsub.viewer", ["domain:google.com"]⟩,
       ⟨"roles/pubsub.publisher", ["group:cloud-logs@google.com"]⟩] ∧
    subscription_bindings_to_add =
      [⟨"roles/pubsub.viewer", ["domain:google.com"]⟩,
       ⟨"roles/editor", ["group:cloud-logs@google.com"]⟩] ∧
    submittedPolicies (set_topic_policy svc pid tid).1 =
      [⟨ft.bindings ++ topic_bindings_to_add⟩] ∧
    submittedPolicies (set_subscription_policy svc pid sid).1 =
      [⟨fs.bindings ++ subscription_bindings_to_add⟩] := by
  refine ⟨rfl, rfl, ?_, ?_⟩
  · simp only [set_topic_policy, hgt]
    split <;>
      simp [submittedPolicies, Policy.addBinding, topic_bindings_to_add]
  · simp only [set_subscription_policy, hgs]
    split <;>
      simp [submittedPolicies, Policy.addBinding, subscription_bindings_to_add]

/-- C8 witness: the hard-coded bindings at a concrete service and ids. -/
theorem set_policy_hardcoded_bindings_witness :
    topic_bindings_to_add =
      [⟨"roles/pubsub.viewer", ["domain:google.com"]⟩,
       ⟨"roles/pubsub.publisher", ["group:cloud-logs@google.com"]⟩] ∧
    subscription_bindings_to_add =
      [⟨"roles/pubsub.viewer", ["domain:google.com"]⟩,
       ⟨"roles/editor", ["group:cloud-logs@google.com"]⟩] ∧
    submittedPolicies (set_topic_policy (storeService fun _ => ⟨[]⟩) "p" "t").1 =
      [⟨(Policy.mk []).bindings ++ topic_bindings_to_add⟩] ∧
    submittedPolicies (set_subscription_policy (storeService fun _ => ⟨[]⟩) "p" "s").1 =
      [⟨(Policy.mk []).bindings ++ subscription_bindings_to_add⟩] :=
  set_policy_hardcoded_bindings (storeService fun _ => ⟨[]⟩) "p" "t" "s" ⟨[]⟩ ⟨[]⟩ rfl rfl

/-- C9: the permission lists the check operations test are hard-coded,
non-empty constants: for every service and every ids, the single service
call of `check_topic_permissions` carries exactly
[pubsub.topics.publish, pubsub.topics.update] and that of
`check_subscription_permissions` carries exactly
[pubsub.subscriptions.consume, pubsub.subscriptions.update]. -/
theorem check_permissions_hardcoded (svc : PolicyService) (pid tid sid : String) :
    serviceCalls (check_topic_permissions svc pid tid).1 =
      [.testIamPermissions (topic_path pid tid)
        ["pubsub.topics.publish", "pubsub.topics.update"]] ∧
    serviceCalls (check_subscription_permissions svc pid sid).1 =
      [.testIamPermissions (subscription_path pid sid)
        ["pubsub.subscriptions.consume", "pubsub.subscriptions.update"]] ∧
    topic_permissions_to_check ≠ [] ∧
    subscription_permissions_to_check ≠ [] := by
  refine ⟨?_, ?_, by simp [topic_permissions_to_check],
    by simp [subscription_permissions_to_check]⟩
  · simp only [check_topic_permissions]
    split <;>
      simp [serviceCalls, Event.isServiceCall, topic_permissions_to_check]
  · simp only [check_subscription_permissions]
    split <;>
      simp [serviceCalls, Event.isServiceCall, subscription_permissions_to_check]

/-- C10: when the parsed command is none of the six recognized subcommands
(in particular when no subcommand was given at all), the dispatcher matches
no branch, performs no Policy Service operation, and the process exits with
code 0. -/
theorem dispatch_fallthrough_exit_zero (svc : PolicyService) (pid rid : String)
    (cmd : Option String)
    (h : ∀ c, cmd = some c → c ∉ command_list) :
    (dispatch svc pid cmd rid).1 = [] ∧
    (dispatch svc pid cmd rid).2 = none ∧
    exit_code (dispatch svc pid cmd rid) = 0 := by
  have h1 : cmd ≠ some "get-topic-policy" := fun hc => h _ hc (by simp [command_list])
  have h2 : cmd ≠ some "get-subscription-policy" := fun hc => h _ hc (by simp [command_list])
  have h3 : cmd ≠ some "set-topic-policy" := fun hc => h _ hc (by simp [command_list])
  have h4 : cmd ≠ some "set-subscription-policy" := fun hc => h _ hc (by simp [command_list])
  have h5 : cmd ≠ some "check-topic-permissions" := fun hc => h _ hc (by simp [command_list])
  have h6 : cmd ≠ some "check-subscription-permissions" :=
    fun hc => h _ hc (by simp [command_list])
  simp [dispatch, exit_code, h1, h2, h3, h4, h5, h6]

/-- C10 witness: invoking with a project id and no subcommand at all. -/
theorem dispatch_fallthrough_exit_zero_witness :
    (dispatch (storeService fun _ => ⟨[]⟩) "proj-1" none "").1 = [] ∧
    (dispatch (storeService fun _ => ⟨[]⟩) "proj-1" none "").2 = none ∧
    exit_code (dispatch (storeService fun _ => ⟨[]⟩) "proj-1" none "") = 0 :=
  dispatch_fallthrough_exit_zero (storeService fun _ => ⟨[]⟩) "proj-1" "" none
    (fun _ hc => nomatch hc)
